import Mathlib

/-
Verification of the SCM_App sidebar controller (static/js/app.js and its
variants). The DOM state touched by the script is embedded shallowly:
the body class "sidebar-open" is a Bool, the inline overflow style is a
String, and the toggle button's aria-expanded attribute is an
Option String (none = attribute absent). The viewport media query
isMobile() is re-evaluated at every call in the source, so each handler
takes the query's current Bool value (or the viewport width) as an
argument.
-/

/-- DOM state observable by the canonical sidebar script: presence of the
body-level class marker, the body's inline overflow value, and the toggle
control's aria-expanded attribute (none when the attribute is absent). -/
structure DomState where
  sidebarOpen : Bool
  overflow : String
  ariaExpanded : Option String
  deriving DecidableEq

/-- Initial DOM state at page load: class absent, aria attribute absent,
inline overflow at whatever value the page set (i0). -/
def initState (i0 : String) : DomState :=
  { sidebarOpen := false, overflow := i0, ariaExpanded := none }

/-- isMobile() evaluates the media query (max-width: 768px) against the
current viewport width. -/
def isMobile (width : Nat) : Bool :=
  decide (width ≤ 768)

/-- setExpanded(isOpen): if the toggle button exists, write its
aria-expanded attribute. toggleBtn says whether the button is present. -/
def setExpanded (toggleBtn : Bool) (isOpen : Bool) (s : DomState) : DomState :=
  if toggleBtn then
    { s with ariaExpanded := some (if isOpen then "true" else "false") }
  else s

/-- openSidebar(): add the body class, lock scroll when the viewport is
mobile at call time, mark the toggle expanded. -/
def openSidebar (toggleBtn : Bool) (isMobileNow : Bool) (s : DomState) : DomState :=
  let s1 := { s with sidebarOpen := true }
  let s2 := if isMobileNow then { s1 with overflow := "hidden" } else s1
  setExpanded toggleBtn true s2

/-- closeSidebar(): remove the body class, set the inline overflow to the
empty string, mark the toggle not expanded. -/
def closeSidebar (toggleBtn : Bool) (s : DomState) : DomState :=
  let s1 := { s with sidebarOpen := false }
  let s2 := { s1 with overflow := "" }
  setExpanded toggleBtn false s2

/-- toggleSidebar(): close when the body class is present, else open. -/
def toggleSidebar (toggleBtn : Bool) (isMobileNow : Bool) (s : DomState) : DomState :=
  if s.sidebarOpen then closeSidebar toggleBtn s else openSidebar toggleBtn isMobileNow s

/-- The three sidebar operations of the script. -/
inductive SidebarOp where
  | op_open
  | op_close
  | op_toggle
  deriving DecidableEq

/-- One call of an operation, with the viewport classification the media
query reports at that call. -/
def concreteStep (toggleBtn : Bool) (s : DomState) : SidebarOp × Bool → DomState
  | (SidebarOp.op_open, m) => openSidebar toggleBtn m s
  | (SidebarOp.op_close, _) => closeSidebar toggleBtn s
  | (SidebarOp.op_toggle, m) => toggleSidebar toggleBtn m s

/-- Run a finite sequence of operation calls in order. -/
def runOps (toggleBtn : Bool) (ops : List (SidebarOp × Bool)) (s : DomState) : DomState :=
  ops.foldl (concreteStep toggleBtn) s

/-- The two-state machine of the spec. -/
inductive AbsState where
  | OPEN
  | CLOSED
  deriving DecidableEq

/-- Transitions of the two-state machine: open goes to OPEN, close goes to
CLOSED, toggle flips. -/
def absStep (a : AbsState) : SidebarOp → AbsState
  | SidebarOp.op_open => AbsState.OPEN
  | SidebarOp.op_close => AbsState.CLOSED
  | SidebarOp.op_toggle =>
      match a with
      | AbsState.OPEN => AbsState.CLOSED
      | AbsState.CLOSED => AbsState.OPEN

/-- Fold of the two-state machine from the initial CLOSED state. -/
def absRun (ops : List SidebarOp) : AbsState :=
  ops.foldl absStep AbsState.CLOSED

theorem runOps_nil (tb : Bool) (s : DomState) : runOps tb [] s = s := rfl

theorem runOps_cons (tb : Bool) (p : SidebarOp × Bool) (ops : List (SidebarOp × Bool)) (s : DomState) :
    runOps tb (p :: ops) s = runOps tb ops (concreteStep tb s p) := rfl

@[simp] theorem setExpanded_sidebarOpen (tb b : Bool) (s : DomState) :
    (setExpanded tb b s).sidebarOpen = s.sidebarOpen := by
  cases tb <;> rfl

@[simp] theorem setExpanded_overflow (tb b : Bool) (s : DomState) :
    (setExpanded tb b s).overflow = s.overflow := by
  cases tb <;> rfl

@[simp] theorem openSidebar_sidebarOpen (tb m : Bool) (s : DomState) :
    (openSidebar tb m s).sidebarOpen = true := by
  cases tb <;> cases m <;> rfl

@[simp] theorem closeSidebar_sidebarOpen (tb : Bool) (s : DomState) :
    (closeSidebar tb s).sidebarOpen = false := by
  cases tb <;> rfl

@[simp] theorem closeSidebar_overflow (tb : Bool) (s : DomState) :
    (closeSidebar tb s).overflow = "" := by
  cases tb <;> rfl

@[simp] theorem openSidebar_ariaExpanded (m : Bool) (s : DomState) :
    (openSidebar true m s).ariaExpanded = some "true" := by
  cases m <;> rfl

@[simp] theorem closeSidebar_ariaExpanded (s : DomState) :
    (closeSidebar true s).ariaExpanded = some "false" := rfl

theorem absState_cases (a : AbsState) (h : a ≠ AbsState.OPEN) : a = AbsState.CLOSED := by
  cases a
  case OPEN => exact absurd rfl h
  case CLOSED => rfl

/-- The concrete run tracks the abstract machine whenever the starting
states agree on openness. -/
theorem runOps_tracks_abs (tb : Bool) :
    ∀ (ops : List (SidebarOp × Bool)) (s : DomState) (a : AbsState),
      (s.sidebarOpen = true ↔ a = AbsState.OPEN) →
      ((runOps tb ops s).sidebarOpen = true ↔
        List.foldl absStep a (ops.map Prod.fst) = AbsState.OPEN) := by
  intro ops
  induction ops with
  | nil =>
      intro s a h
      simpa [runOps] using h
  | cons p rest ih =>
      intro s a h
      obtain ⟨op, m⟩ := p
      rw [runOps_cons]
      cases op with
      | op_open =>
          simp only [List.map_cons, List.foldl_cons]
          exact ih _ AbsState.OPEN (by simp [concreteStep, absStep])
      | op_close =>
          simp only [List.map_cons, List.foldl_cons]
          refine ih _ AbsState.CLOSED ?_
          simp [concreteStep, absStep]
      | op_toggle =>
          simp only [List.map_cons, List.foldl_cons]
          cases hs : s.sidebarOpen with
          | true =>
              have ha : a = AbsState.OPEN := h.mp hs
              subst ha
              refine ih _ AbsState.CLOSED ?_
              simp [concreteStep, toggleSidebar, hs, absStep]
          | false =>
              have ha : a = AbsState.CLOSED := by
                refine absState_cases a ?_
                intro hO
                have := h.mpr hO
                rw [hs] at this
                exact Bool.false_ne_true this
              subst ha
              refine ih _ AbsState.OPEN ?_
              simp [concreteStep, toggleSidebar, hs, absStep]

/-- C1: for every finite sequence of open()/close()/toggle() calls from the
initial CLOSED state (each call seeing an arbitrary viewport
classification), the presence of the body-level class marker equals the
fold of the two-state machine transitions applied in order, and that fold
is exactly one of OPEN or CLOSED. Every prefix of a sequence is itself a
sequence quantified over here, so the correspondence holds after every
prefix. -/
theorem spec_C1_state_machine (tb : Bool) (i0 : String) (ops : List (SidebarOp × Bool)) :
    ((runOps tb ops (initState i0)).sidebarOpen = true ↔
       absRun (ops.map Prod.fst) = AbsState.OPEN)
    ∧ (absRun (ops.map Prod.fst) = AbsState.OPEN ∨
       absRun (ops.map Prod.fst) = AbsState.CLOSED) := by
  constructor
  · have h0 : (initState i0).sidebarOpen = true ↔ AbsState.CLOSED = AbsState.OPEN := by
      simp [initState]
    exact runOps_tracks_abs tb ops (initState i0) AbsState.CLOSED h0
  · cases h : absRun (ops.map Prod.fst) with
    | OPEN => exact Or.inl rfl
    | CLOSED => exact Or.inr rfl

/-- What e.target of a document click resolves to: whether
sidebar.contains(target) holds, whether target.closest matches the toggle
button id, and whether it matches the overlay id. -/
structure ClickTarget where
  insideSidebar : Bool
  onToggle : Bool
  onOverlay : Bool
  deriving DecidableEq

/-- The overlay's click (and touchstart) listener in the canonical
variant: closeSidebar. -/
def overlayClick (toggleBtn : Bool) : DomState → DomState :=
  closeSidebar toggleBtn

/-- The sidebar-link click listener in the canonical variant: closeSidebar
only when the media query reports mobile at click time. -/
def linkClick (toggleBtn : Bool) (isMobileNow : Bool) (s : DomState) : DomState :=
  if isMobileNow then closeSidebar toggleBtn s else s

/-- The document-level outside-click listener of the canonical variant:
return unless mobile, unless the class is present, unless the sidebar
element exists; return when the target is the overlay; close when the
target is neither inside the sidebar nor the toggle. -/
def documentClick (toggleBtn : Bool) (sidebarPresent : Bool) (isMobileNow : Bool)
    (tgt : ClickTarget) (s : DomState) : DomState :=
  if !isMobileNow then s
  else if !s.sidebarOpen then s
  else if !sidebarPresent then s
  else if tgt.onOverlay then s
  else if !tgt.insideSidebar && !tgt.onToggle then closeSidebar toggleBtn s
  else s

/-- A keydown event as the handlers read it. -/
structure KeyEvent where
  ctrlKey : Bool
  metaKey : Bool
  key : String
  deriving DecidableEq

/-- Observable outcome of the search-shortcut handler: whether the search
input is focused, whether its contents are selected, and whether the
event's default was prevented. -/
structure SearchState where
  focused : Bool
  selected : Bool
  defaultPrevented : Bool
  deriving DecidableEq

/-- key.toLowerCase() as the handlers use it: lower-case every character. -/
def keyToLower (s : String) : String :=
  String.mk (s.data.map Char.toLower)

/-- The canonical Ctrl/Cmd+K handler: when the combination matches and the
search input exists, prevent default, focus it, and select its contents
when select is a function on the element. -/
def keydownSearch (searchPresent : Bool) (selectIsFunction : Bool)
    (e : KeyEvent) (st : SearchState) : SearchState :=
  let isCmdK := (e.ctrlKey || e.metaKey) && (keyToLower e.key == "k")
  if !isCmdK then st
  else if searchPresent then
    let st1 := { st with defaultPrevented := true }
    let st2 := { st1 with focused := true }
    if selectIsFunction then { st2 with selected := true } else st2
  else st

/-- State of the first app.js variant, which never writes the aria
attribute; the attribute field records the DOM attribute it leaves
untouched. -/
structure V1State where
  sidebarOpen : Bool
  overflow : String
  ariaExpanded : Option String
  deriving DecidableEq

/-- openSidebar of the first app.js variant: class plus mobile scroll
lock, no accessibility marking. -/
def v1_openSidebar (isMobileNow : Bool) (s : V1State) : V1State :=
  let s1 := { s with sidebarOpen := true }
  if isMobileNow then { s1 with overflow := "hidden" } else s1

/-- closeSidebar of the first app.js variant: class removal plus scroll
restore, no accessibility marking. -/
def v1_closeSidebar (s : V1State) : V1State :=
  { s with sidebarOpen := false, overflow := "" }

/-- The first app.js variant's Ctrl+K handler: preventDefault as soon as
the combination matches, then focus the input when present; it never calls
select. -/
def v1_keydownSearch (searchPresent : Bool) (e : KeyEvent) (st : SearchState) : SearchState :=
  if (e.ctrlKey || e.metaKey) && (keyToLower e.key == "k") then
    let st1 := { st with defaultPrevented := true }
    if searchPresent then { st1 with focused := true } else st1
  else st

/-- State of the second app.js variant: class presence only. -/
structure V2State where
  sidebarOpen : Bool
  deriving DecidableEq

/-- closeSidebar of the second app.js variant. -/
def v2_closeSidebar (_s : V2State) : V2State :=
  { sidebarOpen := false }

/-- The second app.js variant's sidebar-link click listener is
closeSidebar attached directly, with no viewport guard; the viewport
argument records the media classification at click time, which this
variant ignores. -/
def v2_linkClick (_isMobileNow : Bool) (s : V2State) : V2State :=
  v2_closeSidebar s

/-- State of the third app.js variant: class presence only. -/
structure V3State where
  sidebarOpen : Bool
  deriving DecidableEq

/-- toggleSidebar of the third app.js variant:
classList.toggle("sidebar-open"). -/
def v3_toggleSidebar (s : V3State) : V3State :=
  { sidebarOpen := !s.sidebarOpen }

/-- The third app.js variant attaches toggleSidebar, not a close, as the
overlay's click listener. -/
def v3_overlayClick : V3State → V3State :=
  v3_toggleSidebar

/-- new bootstrap.Toast(t).show() for one toast element; the element is
represented by whether its construction throws. -/
def bootstrapToastShow (throws : Bool) : Except String Bool :=
  if throws then Except.error "Toast constructor threw" else Except.ok true

/-- The loop body with its try/catch: a construction failure is caught and
discarded, leaving that element not shown. -/
def guardedToastShow (throws : Bool) : Except String Bool :=
  match bootstrapToastShow throws with
  | Except.ok shown => Except.ok shown
  | Except.error _ => Except.ok false

/-- forEach over the toast elements, propagating any error the body
lets escape. -/
def forEachToast (handler : Bool → Except String Bool) : List Bool → Except String (List Bool)
  | [] => Except.ok []
  | t :: ts => do
      let shown ← handler t
      let rest ← forEachToast handler ts
      pure (shown :: rest)

/-- Toast initialization: when window.bootstrap is present, run the
guarded loop over every toast-marker element. -/
def toastInit (bootstrapPresent : Bool) (throwsList : List Bool) : Except String (List Bool) :=
  if bootstrapPresent then forEachToast guardedToastShow throwsList else Except.ok []

/-- C2 as stated is false: closeSidebar writes the empty string, not the
pre-open value, so an initial inline overflow of "auto" is not restored by
open() then close(). -/
theorem spec_C2_counterexample :
    ¬ ((closeSidebar true (openSidebar true true
          { sidebarOpen := false, overflow := "auto", ariaExpanded := none })).overflow
        = ({ sidebarOpen := false, overflow := "auto", ariaExpanded := none} : DomState).overflow) := by
  decide

/-- C2 amended: open() then close() always leaves the inline overflow
empty, regardless of the viewport classification at either call and of
the toggle button's presence; this equals the pre-open value exactly when
that value was the empty string (the page default). -/
theorem spec_C2_roundtrip (tb m : Bool) (s : DomState) :
    (closeSidebar tb (openSidebar tb m s)).overflow = ""
    ∧ (s.overflow = "" → (closeSidebar tb (openSidebar tb m s)).overflow = s.overflow) := by
  refine ⟨closeSidebar_overflow tb _, ?_⟩
  intro h
  rw [closeSidebar_overflow, h]

/-- C2 witness: the round trip at a concrete empty-overflow state. -/
theorem spec_C2_witness :
    (closeSidebar true (openSidebar true true (initState ""))).overflow = (initState "").overflow :=
  (spec_C2_roundtrip true true (initState "")).2 rfl

/-- C3 as stated is false: in the initial state the sidebar is CLOSED and
the aria-expanded attribute is absent, yet close() with the toggle present
sets the attribute to "false", an observable change. -/
theorem spec_C3_counterexample :
    closeSidebar true { sidebarOpen := false, overflow := "", ariaExpanded := none }
      ≠ { sidebarOpen := false, overflow := "", ariaExpanded := none } := by
  decide

/-- C3 amended: close() is idempotent compositionally, a second close()
changes nothing after a first one; and on a CLOSED state whose overflow is
already empty and whose aria attribute is already "false" (the state any
close() produces with the toggle present), close() is an exact no-op. -/
theorem spec_C3_close_idempotent (s : DomState) :
    (∀ tb : Bool, closeSidebar tb (closeSidebar tb s) = closeSidebar tb s)
    ∧ (s.sidebarOpen = false → s.overflow = "" → s.ariaExpanded = some "false" →
        closeSidebar true s = s) := by
  constructor
  · intro tb
    cases tb <;> rfl
  · intro h1 h2 h3
    cases s with
    | mk so ov ar =>
        simp only at h1 h2 h3
        subst h1
        subst h2
        subst h3
        rfl

/-- C3 witness: both parts at the concrete canonical CLOSED state. -/
theorem spec_C3_witness :
    closeSidebar true (closeSidebar true
        { sidebarOpen := false, overflow := "", ariaExpanded := some "false" })
      = closeSidebar true
        { sidebarOpen := false, overflow := "", ariaExpanded := some "false" }
    ∧ closeSidebar true { sidebarOpen := false, overflow := "", ariaExpanded := some "false" }
      = { sidebarOpen := false, overflow := "", ariaExpanded := some "false" } :=
  ⟨(spec_C3_close_idempotent
      { sidebarOpen := false, overflow := "", ariaExpanded := some "false" }).1 true,
   (spec_C3_close_idempotent
      { sidebarOpen := false, overflow := "", ariaExpanded := some "false" }).2 rfl rfl rfl⟩

/-- C4: in the canonical variant the overlay listener is closeSidebar, so
an overlay click on any state yields CLOSED; but the third app.js variant
attaches toggleSidebar to the overlay, and evaluating it at the failing
input (state CLOSED, overlay clicked) OPENS the sidebar, contradicting
the claim that an overlay click never opens a CLOSED sidebar. -/
theorem spec_C4_overlay_handler :
    (∀ (tb : Bool) (s : DomState), (overlayClick tb s).sidebarOpen = false)
    ∧ v3_overlayClick { sidebarOpen := false } = { sidebarOpen := true } :=
  ⟨fun tb s => closeSidebar_sidebarOpen tb s, rfl⟩

/-- C5: with the sidebar OPEN, the viewport mobile and the sidebar element
present, a document click on a target that is not inside the sidebar, not
on the toggle and not on the overlay closes the sidebar; a click whose
target is the overlay makes the outside-click handler return early with
the state untouched, while the overlay's own listener closes. -/
theorem spec_C5_outside_click (tb : Bool) (s : DomState) (tgt : ClickTarget)
    (hopen : s.sidebarOpen = true) :
    (tgt.insideSidebar = false → tgt.onToggle = false → tgt.onOverlay = false →
      (documentClick tb true true tgt s).sidebarOpen = false)
    ∧ (tgt.onOverlay = true → documentClick tb true true tgt s = s)
    ∧ (overlayClick tb s).sidebarOpen = false := by
  refine ⟨?_, ?_, closeSidebar_sidebarOpen tb s⟩
  · intro h1 h2 h3
    simp [documentClick, hopen, h1, h2, h3]
  · intro h3
    simp [documentClick, hopen, h3]

/-- C5 witness: both click outcomes at a concrete OPEN mobile state. -/
theorem spec_C5_witness :
    (documentClick true true true
        { insideSidebar := false, onToggle := false, onOverlay := false }
        { sidebarOpen := true, overflow := "hidden", ariaExpanded := some "true" }).sidebarOpen = false
    ∧ documentClick true true true
        { insideSidebar := false, onToggle := false, onOverlay := true }
        { sidebarOpen := true, overflow := "hidden", ariaExpanded := some "true" }
      = { sidebarOpen := true, overflow := "hidden", ariaExpanded := some "true" } :=
  ⟨(spec_C5_outside_click true
      { sidebarOpen := true, overflow := "hidden", ariaExpanded := some "true" }
      { insideSidebar := false, onToggle := false, onOverlay := false } rfl).1 rfl rfl rfl,
   (spec_C5_outside_click true
      { sidebarOpen := true, overflow := "hidden", ariaExpanded := some "true" }
      { insideSidebar := false, onToggle := false, onOverlay := true } rfl).2.1 rfl⟩

/-- C6 as stated is false for the second app.js variant, whose link
listener is closeSidebar with no viewport guard: a link click on a
non-mobile viewport changes an OPEN state, where the claim requires the
state unchanged. -/
theorem spec_C6_counterexample :
    v2_linkClick false { sidebarOpen := true } ≠ { sidebarOpen := true } := by
  decide

/-- C6 amended: in the canonical variant a sidebar-link click closes only
when the media query (width at most 768) reports mobile at click time, the
class is then removed and the overflow emptied, and on a wider viewport the
state is exactly unchanged; the second app.js variant closes on any
viewport. -/
theorem spec_C6_link_click (tb : Bool) (s : DomState) (w : Nat) :
    (w ≤ 768 →
      (linkClick tb (isMobile w) s).sidebarOpen = false
      ∧ (linkClick tb (isMobile w) s).overflow = "")
    ∧ (768 < w → linkClick tb (isMobile w) s = s) := by
  constructor
  · intro hw
    have hm : isMobile w = true := by
      simp [isMobile, hw]
    simp [linkClick, hm]
  · intro hw
    have hm : isMobile w = false := by
      simp [isMobile]
      exact hw
    simp [linkClick, hm]

/-- C6 witness: a mobile-width click closes, a desktop-width click is the
identity, at concrete widths 500 and 1024. -/
theorem spec_C6_witness :
    (linkClick true (isMobile 500)
        { sidebarOpen := true, overflow := "hidden", ariaExpanded := some "true" }).sidebarOpen = false
    ∧ linkClick true (isMobile 1024)
        { sidebarOpen := true, overflow := "hidden", ariaExpanded := some "true" }
      = { sidebarOpen := true, overflow := "hidden", ariaExpanded := some "true" } :=
  ⟨((spec_C6_link_click true
       { sidebarOpen := true, overflow := "hidden", ariaExpanded := some "true" } 500).1
      (by decide)).1,
   (spec_C6_link_click true
       { sidebarOpen := true, overflow := "hidden", ariaExpanded := some "true" } 1024).2
      (by decide)⟩

/-- C7 as stated is false for the first app.js variant, which never writes
the accessibility attribute: opening from the initial state leaves
aria-expanded absent rather than "true". -/
theorem spec_C7_counterexample :
    (v1_openSidebar true { sidebarOpen := false, overflow := "", ariaExpanded := none }).ariaExpanded
      ≠ some "true" := by
  decide

/-- C7 amended: in the canonical variant, with the toggle control present,
every open() sets aria-expanded to "true" and every close() sets it to
"false", regardless of the viewport classification; the first app.js
variant leaves the attribute untouched on both operations. -/
theorem spec_C7_aria_marking (m : Bool) (s : DomState) (t : V1State) :
    (openSidebar true m s).ariaExpanded = some "true"
    ∧ (closeSidebar true s).ariaExpanded = some "false"
    ∧ (v1_openSidebar m t).ariaExpanded = t.ariaExpanded
    ∧ (v1_closeSidebar t).ariaExpanded = t.ariaExpanded := by
  refine ⟨openSidebar_ariaExpanded m s, closeSidebar_ariaExpanded s, ?_, rfl⟩
  cases m <;> rfl

/-- C8 as stated is false for the first app.js variant, whose handler
never selects the input contents: at a Ctrl+K event with the search input
present, the contents stay unselected. -/
theorem spec_C8_counterexample :
    (v1_keydownSearch true { ctrlKey := true, metaKey := false, key := "k" }
        { focused := false, selected := false, defaultPrevented := false }).selected = false := by
  decide

/-- C8 amended: in the canonical variant, a keydown with Ctrl or Cmd held
and key "k" (case-insensitive), while the search input is present and
exposes select, focuses the input, selects its contents and prevents the
default handling; the first app.js variant focuses and prevents default
but never selects. -/
theorem spec_C8_ctrl_k (e : KeyEvent) (st : SearchState)
    (hmod : (e.ctrlKey || e.metaKey) = true) (hkey : keyToLower e.key = "k") :
    keydownSearch true true e st
      = { focused := true, selected := true, defaultPrevented := true }
    ∧ v1_keydownSearch true e st
      = { st with focused := true, defaultPrevented := true } := by
  have hb : (keyToLower e.key == "k") = true := by
    simp [hkey]
  constructor
  · simp [keydownSearch, hmod, hb]
  · simp [v1_keydownSearch, hmod, hb]

/-- C8 witness: a concrete Ctrl+K event with the input present. -/
theorem spec_C8_witness :
    keydownSearch true true { ctrlKey := true, metaKey := false, key := "k" }
        { focused := false, selected := false, defaultPrevented := false }
      = { focused := true, selected := true, defaultPrevented := true } :=
  (spec_C8_ctrl_k { ctrlKey := true, metaKey := false, key := "k" }
    { focused := false, selected := false, defaultPrevented := false }
    rfl (by decide)).1

/-- C9: with the widget constructor present, initialization never lets an
exception escape and shows exactly the elements whose construction does
not throw; in particular with three elements where only the second throws,
the first and third still display. -/
theorem spec_C9_toast_isolation (throwsList : List Bool) :
    toastInit true throwsList = Except.ok (throwsList.map fun t => !t) := by
  simp only [toastInit, if_pos]
  induction throwsList with
  | nil => rfl
  | cons t ts ih =>
      cases t
      · simp [forEachToast, guardedToastShow, bootstrapToastShow, ih]
        rfl
      · simp [forEachToast, guardedToastShow, bootstrapToastShow, ih]
        rfl

/-- The correspondence every single operation establishes when the toggle
is present: the aria attribute equals "true" exactly when the class is
present, "false" otherwise. -/
def ariaMatches (s : DomState) : Prop :=
  s.ariaExpanded = some (if s.sidebarOpen then "true" else "false")

theorem concreteStep_ariaMatches (s : DomState) (p : SidebarOp × Bool) :
    ariaMatches (concreteStep true s p) := by
  obtain ⟨op, m⟩ := p
  cases op with
  | op_open =>
      simp [ariaMatches, concreteStep]
  | op_close =>
      simp [ariaMatches, concreteStep]
  | op_toggle =>
      cases hs : s.sidebarOpen <;>
        simp [ariaMatches, concreteStep, toggleSidebar, hs]

theorem runOps_ariaMatches :
    ∀ (ops : List (SidebarOp × Bool)) (s : DomState),
      ops ≠ [] → ariaMatches (runOps true ops s) := by
  intro ops
  induction ops with
  | nil =>
      intro s h
      exact absurd rfl h
  | cons p rest ih =>
      intro s _
      rw [runOps_cons]
      cases rest with
      | nil =>
          rw [runOps_nil]
          exact concreteStep_ariaMatches s p
      | cons q t =>
          exact ih (concreteStep true s p) (by simp)

/-- C10: with the toggle control present, every state reachable from the
initial state by open()/close()/toggle() calls has the body class present
exactly when aria-expanded equals "true"; the empty sequence leaves the
initial state, where both class and attribute are absent, and after any
nonempty sequence the attribute is "true" or "false" matching the class,
because every operation writes both together. -/
theorem spec_C10_aria_class_correspondence (i0 : String) (ops : List (SidebarOp × Bool)) :
    ((runOps true ops (initState i0)).sidebarOpen = true ↔
       (runOps true ops (initState i0)).ariaExpanded = some "true")
    ∧ (ops = [] → runOps true ops (initState i0) = initState i0)
    ∧ (ops ≠ [] →
        (runOps true ops (initState i0)).ariaExpanded =
          some (if (runOps true ops (initState i0)).sidebarOpen then "true" else "false")) := by
  refine ⟨?_, ?_, ?_⟩
  · cases ops with
    | nil =>
        simp [runOps_nil, initState]
    | cons p rest =>
        have hm := runOps_ariaMatches (p :: rest) (initState i0) (by simp)
        unfold ariaMatches at hm
        cases hs : (runOps true (p :: rest) (initState i0)).sidebarOpen with
        | true =>
            rw [hs] at hm
            simp only [if_pos rfl] at hm
            simp [hm]
        | false =>
            rw [hs] at hm
            simp only [Bool.false_eq_true, if_neg] at hm
            rw [hm]
            constructor
            · intro h
              exact absurd h (by simp)
            · intro h
              have : ("false" : String) = "true" := by
                injection h
              exact absurd this (by decide)
  · intro h
    subst h
    exact runOps_nil true (initState i0)
  · intro h
    exact runOps_ariaMatches ops (initState i0) h

/-- C10 witness: the correspondence after the concrete call sequence
consisting of one open() on a mobile viewport. -/
theorem spec_C10_witness :
    ((runOps true [(SidebarOp.op_open, true)] (initState "")).sidebarOpen = true ↔
       (runOps true [(SidebarOp.op_open, true)] (initState "")).ariaExpanded = some "true")
    ∧ (runOps true [(SidebarOp.op_open, true)] (initState "")).ariaExpanded =
        some (if (runOps true [(SidebarOp.op_open, true)] (initState "")).sidebarOpen
              then "true" else "false") :=
  ⟨(spec_C10_aria_class_correspondence "" [(SidebarOp.op_open, true)]).1,
   (spec_C10_aria_class_correspondence "" [(SidebarOp.op_open, true)]).2.2 (by simp)⟩
